import Mathlib

/-!
Verification of the retry decision core of the Temporal history service:
the failure retryability classifier `isRetryable` and the backoff
calculator `getBackoffInterval` exercised by
`src/service/history/workflow/retry_test.go`.

The implementation file (`service/history/workflow/retry.go`) is not part
of the provided sources; only its test is. The definitions below are
therefore modelled from the specification (spec.md §3, §4.1, §4.2) and are
checked against every concrete expectation recorded in `retry_test.go`.

Modelling conventions:
- durations and timestamps are exact rationals measured in nanoseconds;
  the exponential backoff arithmetic is carried out exactly, so the
  floating-point "non-finite" guard of the spec is subsumed by the clamp
  against the effective maximum interval (an overflowing product exceeds
  any finite cap, hence is clamped the same way);
- the `NoBackoff` sentinel is a dedicated constructor of `BackoffInterval`
  rather than Go's negative duration;
- Go's `nil` failure pointer and `nil` expiration timestamp become
  `Option`.
-/

namespace Temporal.Retry

/-- The closed wire enumeration `TimeoutType` (spec.md §3 `TimeoutKind`). -/
inductive TimeoutType where
  | unspecified
  | startToClose
  | scheduleToStart
  | scheduleToClose
  | heartbeat
  deriving DecidableEq, Repr

/-- Canonical wire names of the timeout kinds, as produced by
`enumspb.TimeoutType.String()` and required by spec.md §6 and §9. -/
def TimeoutType.name : TimeoutType → String
  | .unspecified => "Unspecified"
  | .startToClose => "StartToClose"
  | .scheduleToStart => "ScheduleToStart"
  | .scheduleToClose => "ScheduleToClose"
  | .heartbeat => "Heartbeat"

/-- The discriminated union of failure kinds carried by a `Failure` node
(spec.md §3): exactly one `info` per node. -/
inductive FailureInfo where
  | applicationFailureInfo (type : String) (nonRetryable : Bool)
  | timeoutFailureInfo (timeoutType : TimeoutType)
  | serverFailureInfo (nonRetryable : Bool)
  | canceledFailureInfo
  | terminatedFailureInfo
  | activityFailureInfo
  | childWorkflowExecutionFailureInfo
  deriving DecidableEq, Repr

/-- A failure tree node: one `info` and an optional `cause` chain
(spec.md §3). -/
inductive Failure where
  | mk (info : FailureInfo) (cause : Option Failure)

/-- The `info` field of a failure node. -/
def Failure.info : Failure → FailureInfo
  | .mk i _ => i

/-- The optional `cause` field of a failure node. -/
def Failure.cause : Failure → Option Failure
  | .mk _ c => c

/-- Modelled from the spec: the blocklist key derived from a timeout
failure — the fixed text `TimeoutType:` followed by the canonical name of
the timeout kind (spec.md §4.1 rule 5; `common.TimeoutFailureTypePrefix`
in the Go sources, which are absent from src/). -/
def timeoutFailureTypeKey (t : TimeoutType) : String :=
  "TimeoutType:" ++ t.name

/-- Modelled from the spec: the retryability classifier
`isRetryable(failure, non_retryable_types)` of spec.md §4.1
(`isRetryable` in `service/history/workflow/retry.go`, absent from src/;
its behaviour is pinned by `Test_IsRetryable` in
`src/service/history/workflow/retry_test.go`). Rule order: child-workflow
wrapper short-circuit, unambiguously non-retryable kinds, timeout kinds,
explicit non-retryable flags, user type filter, default retryable. An
absent failure is retryable. The cause chain is never consulted. -/
def isRetryable (f : Option Failure) (nonRetryableTypes : List String) : Bool :=
  match f with
  | none => true
  | some f =>
    match f.info with
    | .childWorkflowExecutionFailureInfo => true
    | .terminatedFailureInfo => false
    | .canceledFailureInfo => false
    | .timeoutFailureInfo t =>
      if t = .startToClose ∨ t = .heartbeat then
        if timeoutFailureTypeKey t ∈ nonRetryableTypes then false else true
      else false
    | .serverFailureInfo nonRetryable => !nonRetryable
    | .applicationFailureInfo type nonRetryable =>
      if nonRetryable then false
      else if type ≠ "" ∧ type ∈ nonRetryableTypes then false else true
    | .activityFailureInfo => true

/-- The closed outcome enumeration of the backoff calculator
(spec.md §3 retry state; `enumspb.RetryState` values asserted by
`Test_NextRetry`). -/
inductive RetryState where
  | inProgress
  | maximumAttemptsReached
  | timeout
  | nonRetryableFailure
  deriving DecidableEq, Repr

/-- The interval component of the calculator's result: either the
sentinel `NoBackoff` (`backoff.NoBackoff` in Go) or a concrete duration
in nanoseconds. -/
inductive BackoffInterval where
  | noBackoff
  | interval (d : ℚ)
  deriving DecidableEq, Repr

/-- Modelled from the spec: the effective maximum interval of
spec.md §4.2 step 3 — the explicit `maximum_interval` when positive,
otherwise the derived cap of `100 × initial_interval`. -/
def effectiveMaximumInterval (initialInterval maximumInterval : ℚ) : ℚ :=
  if 0 < maximumInterval then maximumInterval else 100 * initialInterval

/-- Modelled from the spec: the nominal next interval of spec.md §4.2
step 3. `attempt ≤ 0` is treated as `attempt = 1` (so the exponent
`attempt − 1` is clamped at 0, which `Int.toNat` performs); the result is
clamped to the effective maximum interval and never negative. The
arithmetic is exact, so the spec's non-finite guard coincides with the
clamp. -/
def nominalInterval (attempt : ℤ) (initialInterval maximumInterval coefficient : ℚ) : ℚ :=
  let cap := effectiveMaximumInterval initialInterval maximumInterval
  let raw := initialInterval * coefficient ^ (attempt - 1).toNat
  let clamped := if cap < raw then cap else raw
  if clamped < 0 then 0 else clamped

/-- Modelled from the spec: the backoff calculator
`getBackoffInterval(now, attempt, maxAttempts, initInterval, maxInterval,
expirationTime, backoffCoefficient, failure, nonRetryableTypes)` of
spec.md §4.2 (`getBackoffInterval` in
`service/history/workflow/retry.go`, absent from src/; its behaviour is
pinned by `Test_NextRetry` in
`src/service/history/workflow/retry_test.go`). Decision order:
classifier gate, attempt budget, interval arithmetic, expiration gate,
success. -/
def getBackoffInterval (now : ℚ) (attempt maxAttempts : ℤ)
    (initialInterval maximumInterval : ℚ) (expirationTime : Option ℚ)
    (coefficient : ℚ) (f : Option Failure) (nonRetryableTypes : List String) :
    BackoffInterval × RetryState :=
  if isRetryable f nonRetryableTypes = false then
    (.noBackoff, .nonRetryableFailure)
  else if 0 < maxAttempts ∧ maxAttempts ≤ attempt then
    (.noBackoff, .maximumAttemptsReached)
  else
    match expirationTime with
    | some e =>
      if e ≤ now + nominalInterval attempt initialInterval maximumInterval coefficient then
        (.noBackoff, .timeout)
      else
        (.interval (nominalInterval attempt initialInterval maximumInterval coefficient),
          .inProgress)
    | none =>
      (.interval (nominalInterval attempt initialInterval maximumInterval coefficient),
        .inProgress)

/-- A retryable server failure, as built by
`failure.NewServerFailure("...", false)` in `Test_NextRetry`. -/
def retryableServerFailure : Option Failure :=
  some (.mk (.serverFailureInfo false) none)

end Temporal.Retry

namespace Temporal.Retry

/-- On the success path the interval component is exactly the nominal
(clamped) interval of §4.2 step 3. -/
lemma interval_component_eq_nominal (now : ℚ) (attempt maxAttempts : ℤ)
    (initialInterval maximumInterval : ℚ) (expirationTime : Option ℚ) (coefficient : ℚ)
    (f : Option Failure) (nonRetryableTypes : List String) (d : ℚ) (s : RetryState)
    (h : getBackoffInterval now attempt maxAttempts initialInterval maximumInterval
      expirationTime coefficient f nonRetryableTypes = (.interval d, s)) :
    d = nominalInterval attempt initialInterval maximumInterval coefficient := by
  unfold getBackoffInterval at h
  split at h
  · simp at h
  · split at h
    · simp at h
    · split at h
      · split at h
        · simp at h
        · simp only [Prod.mk.injEq, BackoffInterval.interval.injEq] at h
          exact h.1.symm
      · simp only [Prod.mk.injEq, BackoffInterval.interval.injEq] at h
        exact h.1.symm

/-- The nominal interval is never negative. -/
lemma nominalInterval_nonneg (attempt : ℤ) (initialInterval maximumInterval coefficient : ℚ) :
    0 ≤ nominalInterval attempt initialInterval maximumInterval coefficient := by
  simp only [nominalInterval]
  split <;> split
  · exact le_refl (0 : ℚ)
  · exact le_of_not_lt (by assumption)
  · exact le_refl (0 : ℚ)
  · exact le_of_not_lt (by assumption)

/-- The effective maximum interval is non-negative whenever the initial
interval is. -/
lemma effectiveMaximumInterval_nonneg (initialInterval maximumInterval : ℚ)
    (h : 0 ≤ initialInterval) :
    0 ≤ effectiveMaximumInterval initialInterval maximumInterval := by
  unfold effectiveMaximumInterval
  split
  · exact le_of_lt (by assumption)
  · positivity

/-- The nominal interval never exceeds the effective maximum interval
(for non-negative initial intervals). -/
lemma nominalInterval_le_cap (attempt : ℤ) (initialInterval maximumInterval coefficient : ℚ)
    (h : 0 ≤ initialInterval) :
    nominalInterval attempt initialInterval maximumInterval coefficient ≤
      effectiveMaximumInterval initialInterval maximumInterval := by
  simp only [nominalInterval]
  split <;> split
  · exact effectiveMaximumInterval_nonneg initialInterval maximumInterval h
  · exact le_refl _
  · exact effectiveMaximumInterval_nonneg initialInterval maximumInterval h
  · exact le_of_not_lt (by assumption)

/-- `Test_NextRetry` scenario: attempt 1, initial 1ms, coefficient 2, no
cap, no expiration — interval 1ms. -/
lemma backoff_eval_attempt1 :
    getBackoffInterval 0 1 5 1000000 0 none 2 retryableServerFailure []
      = (.interval 1000000, .inProgress) := by
  simp only [getBackoffInterval, nominalInterval, effectiveMaximumInterval, isRetryable,
    retryableServerFailure, Failure.info]
  rw [(by decide : ((1 : ℤ) - 1).toNat = 0)]
  norm_num

/-- `Test_NextRetry` scenario: attempt 2 — interval 2ms. -/
lemma backoff_eval_attempt2 :
    getBackoffInterval 0 2 5 1000000 0 none 2 retryableServerFailure []
      = (.interval 2000000, .inProgress) := by
  simp only [getBackoffInterval, nominalInterval, effectiveMaximumInterval, isRetryable,
    retryableServerFailure, Failure.info]
  rw [(by decide : ((2 : ℤ) - 1).toNat = 1)]
  norm_num

/-- `Test_NextRetry` scenario: attempt 3 — interval 4ms. -/
lemma backoff_eval_attempt3 :
    getBackoffInterval 0 3 5 1000000 0 none 2 retryableServerFailure []
      = (.interval 4000000, .inProgress) := by
  simp only [getBackoffInterval, nominalInterval, effectiveMaximumInterval, isRetryable,
    retryableServerFailure, Failure.info]
  rw [(by decide : ((3 : ℤ) - 1).toNat = 2)]
  norm_num

/-- `Test_NextRetry` scenario: attempt 64, cap 10ms — the exponential
overflows the cap and is clamped to 10ms. -/
lemma backoff_eval_attempt64 :
    getBackoffInterval 0 64 100 1000000 10000000 none 2 retryableServerFailure []
      = (.interval 10000000, .inProgress) := by
  simp only [getBackoffInterval, nominalInterval, effectiveMaximumInterval, isRetryable,
    retryableServerFailure, Failure.info]
  rw [(by decide : ((64 : ℤ) - 1).toNat = 63)]
  norm_num

/-- At attempt 6 with initial 1ms, cap 10ms and coefficient 2 the nominal
interval is the cap, 10ms. -/
lemma nominalInterval_eval_attempt6 : nominalInterval 6 1000000 10000000 2 = 10000000 := by
  simp only [nominalInterval, effectiveMaximumInterval]
  rw [(by decide : ((6 : ℤ) - 1).toNat = 5)]
  norm_num

/-- A deadline exactly at `now + interval` satisfies the (inclusive)
expiration comparison. -/
lemma deadline_le_now_add_nominal :
    (10000000 : ℚ) ≤ 0 + nominalInterval 6 1000000 10000000 2 := by
  rw [nominalInterval_eval_attempt6]
  norm_num

/-- With no explicit cap, an initial interval of 1ms is below the derived
cap of 100ms. -/
lemma initial_le_cap_eval : (1000000 : ℚ) ≤ effectiveMaximumInterval 1000000 0 := by
  simp only [effectiveMaximumInterval]
  norm_num

/-- C2: a failure whose outermost info is `ChildWorkflowExecutionFailure`
is always retryable, for every cause chain and every blocklist; the cause
is not consulted. -/
theorem isRetryable_childWorkflow_always_true (c : Option Failure) (S : List String) :
    isRetryable (some (.mk .childWorkflowExecutionFailureInfo c)) S = true := by
  simp [isRetryable, Failure.info]

/-- C3: with an empty blocklist, a failure whose outermost info is a
`TimeoutFailure` is retryable exactly when the timeout type is
`StartToClose` or `Heartbeat`; `Unspecified`, `ScheduleToStart` and
`ScheduleToClose` are not retryable. -/
theorem isRetryable_timeout_iff (t : TimeoutType) (c : Option Failure) :
    isRetryable (some (.mk (.timeoutFailureInfo t) c)) [] = true ↔
      t = .startToClose ∨ t = .heartbeat := by
  cases t <;> simp [isRetryable, Failure.info]

/-- C1: the interval returned by `getBackoffInterval` is the sentinel
`NoBackoff` exactly when the returned retry state is not `InProgress`:
every terminal outcome is paired with `NoBackoff` and every `InProgress`
outcome with a concrete interval. -/
theorem backoff_noBackoff_iff_not_inProgress (now : ℚ) (attempt maxAttempts : ℤ)
    (initialInterval maximumInterval : ℚ) (expirationTime : Option ℚ) (coefficient : ℚ)
    (f : Option Failure) (nonRetryableTypes : List String) :
    (getBackoffInterval now attempt maxAttempts initialInterval maximumInterval
        expirationTime coefficient f nonRetryableTypes).1 = BackoffInterval.noBackoff
      ↔ (getBackoffInterval now attempt maxAttempts initialInterval maximumInterval
        expirationTime coefficient f nonRetryableTypes).2 ≠ RetryState.inProgress := by
  unfold getBackoffInterval
  split
  · simp
  · split
    · simp
    · split
      · split <;> simp
      · simp

/-- C5: for a retryable failure, a positive `maxAttempts` not exceeding
the current attempt yields `(NoBackoff, MaximumAttemptsReached)` (so
`maxAttempts = 1` at the first attempt exhausts the budget), and
`maxAttempts = 0` (unbounded) can never produce
`MaximumAttemptsReached`. -/
theorem backoff_maximum_attempts (now : ℚ) (attempt maxAttempts : ℤ)
    (initialInterval maximumInterval : ℚ) (expirationTime : Option ℚ) (coefficient : ℚ)
    (f : Option Failure) (nonRetryableTypes : List String) :
    (isRetryable f nonRetryableTypes = true → 0 < maxAttempts → maxAttempts ≤ attempt →
      getBackoffInterval now attempt maxAttempts initialInterval maximumInterval
          expirationTime coefficient f nonRetryableTypes
        = (.noBackoff, .maximumAttemptsReached))
    ∧ (maxAttempts = 0 →
      (getBackoffInterval now attempt maxAttempts initialInterval maximumInterval
          expirationTime coefficient f nonRetryableTypes).2
        ≠ RetryState.maximumAttemptsReached) := by
  constructor
  · intro hr hpos hle
    unfold getBackoffInterval
    rw [if_neg (by simp [hr]), if_pos ⟨hpos, hle⟩]
  · intro h0
    unfold getBackoffInterval
    split
    · simp
    · rw [if_neg (by simp [h0])]
      split
      · split <;> simp
      · simp

/-- C5 witness: `maxAttempts = 1` with `attempt = 1` (initial interval
1s, retryable server failure) gives `MaximumAttemptsReached`. -/
theorem backoff_maximum_attempts_witness :
    getBackoffInterval 0 1 1 1000000000 0 none 2 retryableServerFailure []
      = (.noBackoff, .maximumAttemptsReached) :=
  (backoff_maximum_attempts 0 1 1 1000000000 0 none 2 retryableServerFailure []).1
    (by decide) (by decide) (by decide)

/-- C7: for a retryable failure within the attempt budget, a set
expiration time at or before `now + interval` yields
`(NoBackoff, Timeout)` (inclusive comparison), and an unset expiration
time can never produce `Timeout`. -/
theorem backoff_expiration_gate (now : ℚ) (attempt maxAttempts : ℤ)
    (initialInterval maximumInterval : ℚ) (expirationTime : Option ℚ) (coefficient : ℚ)
    (f : Option Failure) (nonRetryableTypes : List String) :
    (∀ e : ℚ, isRetryable f nonRetryableTypes = true →
      ¬(0 < maxAttempts ∧ maxAttempts ≤ attempt) →
      expirationTime = some e →
      e ≤ now + nominalInterval attempt initialInterval maximumInterval coefficient →
      getBackoffInterval now attempt maxAttempts initialInterval maximumInterval
          expirationTime coefficient f nonRetryableTypes
        = (.noBackoff, .timeout))
    ∧ (expirationTime = none →
      (getBackoffInterval now attempt maxAttempts initialInterval maximumInterval
          expirationTime coefficient f nonRetryableTypes).2 ≠ RetryState.timeout) := by
  constructor
  · intro e hr hbudget hexp hle
    subst hexp
    unfold getBackoffInterval
    rw [if_neg (by simp [hr]), if_neg hbudget]
    exact if_pos hle
  · intro hexp
    subst hexp
    unfold getBackoffInterval
    split
    · simp
    · split
      · simp
      · simp

/-- C7 witness: attempt 6, cap 10ms, expiration exactly at
`now + 10ms` — the inclusive comparison fires and yields `Timeout`. -/
theorem backoff_expiration_gate_witness :
    getBackoffInterval 0 6 8 1000000 10000000 (some 10000000) 2 retryableServerFailure []
      = (.noBackoff, .timeout) :=
  (backoff_expiration_gate 0 6 8 1000000 10000000 (some 10000000) 2
      retryableServerFailure []).1 10000000 (by decide) (by decide) rfl
    deadline_le_now_add_nominal

/-- C4: the user type filter of `isRetryable`. For a timeout failure of a
retryable kind the derived key is the text `TimeoutType:` followed by the
canonical name of the timeout kind, and the classifier rejects exactly
when that key is in `non_retryable_types`; for an application failure
(non-retryable flag unset) the key is the literal `type` field and a
non-empty key rejects exactly when present; other kinds derive no key and
are never rejected by the blocklist. Matching is exact and
case-sensitive, so blocklist entries matching no key (a key for a
different timeout kind, or an unknown stringified timeout type) leave the
result unchanged. -/
theorem isRetryable_user_type_filter :
    (∀ (t : TimeoutType) (c : Option Failure) (S : List String),
      t = TimeoutType.startToClose ∨ t = TimeoutType.heartbeat →
      (isRetryable (some (.mk (.timeoutFailureInfo t) c)) S = false ↔
        timeoutFailureTypeKey t ∈ S))
    ∧ (∀ (ty : String) (c : Option Failure) (S : List String), ty ≠ "" →
      (isRetryable (some (.mk (.applicationFailureInfo ty false) c)) S = false ↔ ty ∈ S))
    ∧ (∀ (c : Option Failure) (S : List String),
      isRetryable (some (.mk (.applicationFailureInfo "" false) c)) S = true)
    ∧ (∀ (c : Option Failure) (S : List String),
      isRetryable (some (.mk (.serverFailureInfo false) c)) S = true)
    ∧ (∀ (c : Option Failure) (S : List String),
      isRetryable (some (.mk .activityFailureInfo c)) S = true)
    ∧ timeoutFailureTypeKey .startToClose = "TimeoutType:StartToClose"
    ∧ timeoutFailureTypeKey .heartbeat = "TimeoutType:Heartbeat" := by
  refine ⟨?_, ?_, ?_, ?_, ?_, rfl, rfl⟩
  · intro t c S ht
    by_cases hm : timeoutFailureTypeKey t ∈ S <;>
      rcases ht with h | h <;> subst h <;>
      simp_all [isRetryable, Failure.info]
  · intro ty c S hne
    by_cases hm : ty ∈ S <;> simp [isRetryable, Failure.info, hne, hm]
  · intro c S
    simp [isRetryable, Failure.info]
  · intro c S
    simp [isRetryable, Failure.info]
  · intro c S
    simp [isRetryable, Failure.info]

/-- C4 witness: the canonical timeout key and an application type both
reject when present in the blocklist. -/
theorem isRetryable_user_type_filter_witness :
    isRetryable (some (.mk (.timeoutFailureInfo .startToClose) none))
        ["TimeoutType:StartToClose"] = false
    ∧ isRetryable (some (.mk (.applicationFailureInfo "type" false) none))
        ["otherType", "type"] = false :=
  ⟨(isRetryable_user_type_filter.1 .startToClose none ["TimeoutType:StartToClose"]
      (Or.inl rfl)).mpr (by decide),
    (isRetryable_user_type_filter.2.1 "type" none ["otherType", "type"] (by decide)).mpr
      (by decide)⟩

/-- C6: on the `InProgress` path the returned interval is the clamped
exponential `initial_interval × coefficient^(attempt − 1)`: attempt 1
yields exactly the initial interval (when it does not exceed the
effective cap), a power at or above the effective cap — including the
exact-arithmetic image of a floating-point overflow — is clamped to the
effective maximum interval, and the `Test_NextRetry` scenarios evaluate
to 1ms, 2ms, 4ms for attempts 1–3 and to the 10ms cap at attempt 64. -/
theorem backoff_interval_exponential_and_clamped :
    (∀ (now : ℚ) (attempt maxAttempts : ℤ) (initialInterval maximumInterval : ℚ)
        (expirationTime : Option ℚ) (coefficient : ℚ) (f : Option Failure)
        (nonRetryableTypes : List String) (d : ℚ) (s : RetryState),
      getBackoffInterval now attempt maxAttempts initialInterval maximumInterval
          expirationTime coefficient f nonRetryableTypes = (.interval d, s) →
      d = nominalInterval attempt initialInterval maximumInterval coefficient)
    ∧ (∀ initialInterval maximumInterval coefficient : ℚ, 0 ≤ initialInterval →
      initialInterval ≤ effectiveMaximumInterval initialInterval maximumInterval →
      nominalInterval 1 initialInterval maximumInterval coefficient = initialInterval)
    ∧ (∀ (attempt : ℤ) (initialInterval maximumInterval coefficient : ℚ),
      0 ≤ initialInterval →
      effectiveMaximumInterval initialInterval maximumInterval ≤
        initialInterval * coefficient ^ (attempt - 1).toNat →
      nominalInterval attempt initialInterval maximumInterval coefficient =
        effectiveMaximumInterval initialInterval maximumInterval)
    ∧ getBackoffInterval 0 1 5 1000000 0 none 2 retryableServerFailure []
        = (.interval 1000000, .inProgress)
    ∧ getBackoffInterval 0 2 5 1000000 0 none 2 retryableServerFailure []
        = (.interval 2000000, .inProgress)
    ∧ getBackoffInterval 0 3 5 1000000 0 none 2 retryableServerFailure []
        = (.interval 4000000, .inProgress)
    ∧ getBackoffInterval 0 64 100 1000000 10000000 none 2 retryableServerFailure []
        = (.interval 10000000, .inProgress) := by
  refine ⟨interval_component_eq_nominal, ?_, ?_, backoff_eval_attempt1, backoff_eval_attempt2,
    backoff_eval_attempt3, backoff_eval_attempt64⟩
  · intro initialInterval maximumInterval coefficient h0 hle
    simp only [nominalInterval]
    rw [(by decide : ((1 : ℤ) - 1).toNat = 0), pow_zero, mul_one]
    rw [if_neg (not_lt.mpr hle), if_neg (not_lt.mpr h0)]
  · intro attempt initialInterval maximumInterval coefficient h0 hcap
    have hcapnn := effectiveMaximumInterval_nonneg initialInterval maximumInterval h0
    simp only [nominalInterval]
    by_cases hlt : effectiveMaximumInterval initialInterval maximumInterval <
        initialInterval * coefficient ^ (attempt - 1).toNat
    · rw [if_pos hlt, if_neg (not_lt.mpr hcapnn)]
    · rw [if_neg hlt]
      have heq : initialInterval * coefficient ^ (attempt - 1).toNat =
          effectiveMaximumInterval initialInterval maximumInterval :=
        le_antisymm (not_lt.mp hlt) hcap
      rw [heq, if_neg (not_lt.mpr hcapnn)]

/-- C6 witness: attempt 1 with initial 1ms and no explicit cap yields
exactly the initial interval. -/
theorem backoff_interval_exponential_and_clamped_witness :
    nominalInterval 1 1000000 0 2 = 1000000 :=
  backoff_interval_exponential_and_clamped.2.1 1000000 0 2 (by decide) initial_le_cap_eval

/-- C8: with `maximum_interval = 0` the derived effective cap is
`100 × initial_interval` and bounds every returned interval; with
additionally `initial_interval = 0` the effective cap is zero and the
returned interval is zero. -/
theorem backoff_zero_maximum_interval_cap :
    (∀ initialInterval : ℚ,
      effectiveMaximumInterval initialInterval 0 = 100 * initialInterval)
    ∧ (∀ (now : ℚ) (attempt maxAttempts : ℤ) (initialInterval : ℚ)
        (expirationTime : Option ℚ) (coefficient : ℚ) (f : Option Failure)
        (nonRetryableTypes : List String) (d : ℚ) (s : RetryState), 0 ≤ initialInterval →
      getBackoffInterval now attempt maxAttempts initialInterval 0 expirationTime
          coefficient f nonRetryableTypes = (.interval d, s) →
      d ≤ 100 * initialInterval)
    ∧ (∀ (attempt : ℤ) (coefficient : ℚ), nominalInterval attempt 0 0 coefficient = 0)
    ∧ (∀ (now : ℚ) (attempt maxAttempts : ℤ) (expirationTime : Option ℚ) (coefficient : ℚ)
        (f : Option Failure) (nonRetryableTypes : List String) (d : ℚ) (s : RetryState),
      getBackoffInterval now attempt maxAttempts 0 0 expirationTime coefficient
          f nonRetryableTypes = (.interval d, s) →
      d = 0) := by
  have hcap : ∀ i : ℚ, effectiveMaximumInterval i 0 = 100 * i := by
    intro i
    unfold effectiveMaximumInterval
    rw [if_neg (lt_irrefl 0)]
  have hzero : ∀ (attempt : ℤ) (coefficient : ℚ),
      nominalInterval attempt 0 0 coefficient = 0 := by
    intro attempt coefficient
    have h1 := nominalInterval_nonneg attempt 0 0 coefficient
    have h2 := nominalInterval_le_cap attempt 0 0 coefficient le_rfl
    rw [hcap 0, mul_zero] at h2
    exact le_antisymm h2 h1
  refine ⟨hcap, ?_, hzero, ?_⟩
  · intro now attempt maxAttempts initialInterval expT coeff f nrts d s h0 h
    have hd := interval_component_eq_nominal now attempt maxAttempts initialInterval 0
      expT coeff f nrts d s h
    rw [hd, ← hcap initialInterval]
    exact nominalInterval_le_cap attempt initialInterval 0 coeff h0
  · intro now attempt maxAttempts expT coeff f nrts d s h
    have hd := interval_component_eq_nominal now attempt maxAttempts 0 0
      expT coeff f nrts d s h
    rw [hd]
    exact hzero attempt coeff

/-- C8 witness: with no explicit cap, the 1ms interval of the first
scenario is bounded by the derived cap of 100 × 1ms. -/
theorem backoff_zero_maximum_interval_cap_witness :
    (1000000 : ℚ) ≤ 100 * 1000000 :=
  backoff_zero_maximum_interval_cap.2.1 0 1 5 1000000 none 2 retryableServerFailure []
    1000000 .inProgress (by decide) backoff_eval_attempt1

/-- C9: every concrete interval returned by `getBackoffInterval` is a
(finite) rational that is non-negative and bounded by the effective
maximum interval. -/
theorem backoff_interval_nonneg_and_capped (now : ℚ) (attempt maxAttempts : ℤ)
    (initialInterval maximumInterval : ℚ) (expirationTime : Option ℚ) (coefficient : ℚ)
    (f : Option Failure) (nonRetryableTypes : List String) (d : ℚ) (s : RetryState)
    (h0 : 0 ≤ initialInterval)
    (h : getBackoffInterval now attempt maxAttempts initialInterval maximumInterval
      expirationTime coefficient f nonRetryableTypes = (.interval d, s)) :
    0 ≤ d ∧ d ≤ effectiveMaximumInterval initialInterval maximumInterval := by
  have hd := interval_component_eq_nominal now attempt maxAttempts initialInterval
    maximumInterval expirationTime coefficient f nonRetryableTypes d s h
  rw [hd]
  exact ⟨nominalInterval_nonneg attempt initialInterval maximumInterval coefficient,
    nominalInterval_le_cap attempt initialInterval maximumInterval coefficient h0⟩

/-- C9 witness: the 1ms interval of the first scenario is non-negative
and below the effective cap. -/
theorem backoff_interval_nonneg_and_capped_witness :
    (0 : ℚ) ≤ 1000000 ∧ (1000000 : ℚ) ≤ effectiveMaximumInterval 1000000 0 :=
  backoff_interval_nonneg_and_capped 0 1 5 1000000 0 none 2 retryableServerFailure []
    1000000 .inProgress (by decide) backoff_eval_attempt1

/-- C10: with an unset expiration time, the result of
`getBackoffInterval` does not depend on `now`. -/
theorem backoff_independent_of_now_without_expiration (now1 now2 : ℚ)
    (attempt maxAttempts : ℤ) (initialInterval maximumInterval coefficient : ℚ)
    (f : Option Failure) (nonRetryableTypes : List String) :
    getBackoffInterval now1 attempt maxAttempts initialInterval maximumInterval
        none coefficient f nonRetryableTypes
      = getBackoffInterval now2 attempt maxAttempts initialInterval maximumInterval
        none coefficient f nonRetryableTypes := rfl

end Temporal.Retry
